import Mathlib

/-!
Shallow embedding of `src/main.py` of the gcs-downloader repository, and
proofs of the specification's claims about it.

The program shells out to an external storage CLI (`gsutil`) for listing,
size probing and copying; its own logic is: a polling progress monitor
(`update_progress`), a single-item downloader (`download_with_progress`),
a batch orchestrator over a thread pool (`batch_download`), an interactive
front end (`interactive_download`) and a `main` entry point.  External
process results (exit codes, stdout) and user input are parameters of the
embedded functions; uncaught Python exceptions are modelled as explicit
error values.
-/

namespace GCSDownloader

/-! ### Progress monitor (`update_progress`, src/main.py lines 84-106)

The monitor thread keeps `previous_size` (initialised to 0) and a progress
bar position; at each poll it measures `current_size` of the destination
and, when `current_size > previous_size`, advances the bar by
`current_size - previous_size` and stores the new `previous_size`.
A poll is modelled by the observed size; a run by the list of observed
sizes. -/

/-- State of the monitor loop: `previous` is the Python local
`previous_size`, `advanced` is the cumulative amount passed to
`progress_bar.update` so far (the bar's position). -/
structure MonitorState where
  previous : Nat
  advanced : Nat
  deriving Repr, DecidableEq

/-- One iteration of the `while` loop in `update_progress`, given the
destination size `current` observed at this poll:
`if current_size > previous_size: progress_bar.update(current_size - previous_size); previous_size = current_size`. -/
def monitorStep (st : MonitorState) (current : Nat) : MonitorState :=
  if st.previous < current then
    { previous := current, advanced := st.advanced + (current - st.previous) }
  else
    st

/-- A whole run of the monitor over the sizes observed at successive polls,
starting from `previous_size = 0` and a bar at position 0. -/
def runMonitor (sizes : List Nat) : MonitorState :=
  sizes.foldl monitorStep { previous := 0, advanced := 0 }

/-! ### Batch orchestrator (`batch_download`, src/main.py lines 148-188)

`batch_download` maps `download_item` over the item list with
`ThreadPoolExecutor(max_workers=w).map`, which keeps at most `w` tasks in
flight and yields results in submission order; `download_item` returns the
pair `(item, success)`.  The per-item copy outcome is a parameter
`copyOk : String → Bool` (the external copy process's success for that
source, which `download_with_progress` returns unchanged).  The bounded
pool is modelled by processing the items in successive rounds of at most
`w` slots; Python's executor rejects a non-positive width
(`ValueError: max_workers must be greater than 0`), so `w = 0` is outside
the modelled behaviour. -/

/-- Rounds of a bounded worker pool of width `w`: successive groups of at
most `w` items. -/
def poolRounds (w : Nat) (l : List String) : List (List String) :=
  if h : l = [] ∨ w = 0 then
    if l = [] then [] else [l]
  else
    l.take w :: poolRounds w (l.drop w)
termination_by l.length
decreasing_by
  have h1 : ¬l = [] ∧ ¬w = 0 := not_or.mp h
  have h2 : 0 < l.length := List.length_pos.mpr h1.1
  simp only [List.length_drop]
  omega

/-- Inner function `download_item` of `batch_download`, as the transfer
result it returns: the pair `(item, success)` (src/main.py line 172).
The folder-destination preparation it performs in folder mode is embedded
separately below as `download_item_folder_prep`. -/
def download_item_result (copyOk : String → Bool) (item : String) :
    String × Bool :=
  (item, copyOk item)

/-- Result list collected by `results = list(executor.map(download_item, items))`
under the round-based pool model. -/
def batchResults (copyOk : String → Bool) (maxWorkers : Nat)
    (items : List String) : List (String × Bool) :=
  ((poolRounds maxWorkers items).map
    (fun round => round.map (download_item_result copyOk))).flatten

/-- Aggregation `successful = [item for item, success in results if success]`. -/
def successfulOf (results : List (String × Bool)) : List String :=
  (results.filter (fun r => r.2)).map Prod.fst

/-- Aggregation `failed = [item for item, success in results if not success]`. -/
def failedOf (results : List (String × Bool)) : List String :=
  (results.filter (fun r => !r.2)).map Prod.fst

/-! ### Storage client adapter (`get_size_of_object`, src/main.py lines 39-53) -/

/-- Python `str.split()` with no argument: split on whitespace runs,
dropping empty pieces. -/
def pySplit (s : String) : List String :=
  (s.split Char.isWhitespace).filter (fun t => t != "")

/-- Embedding of `get_size_of_object`.  The exit status and stdout of the
`gsutil -q du -s <path>` subprocess are parameters.  With `check=True`, a
nonzero exit raises `CalledProcessError`, which the surrounding `try`
catches and turns into `return 0`; on a zero exit the first whitespace
token of `stdout.strip()` is parsed as an integer (an `IndexError` on
empty output or a `ValueError` on a non-numeric token is not caught and
propagates, modelled as `Except.error`).  The probed sizes are
non-negative, so Python's `int` is modelled by `String.toNat?`. -/
def get_size_of_object (duExit : Nat) (duStdout : String) :
    Except String Nat :=
  if duExit ≠ 0 then Except.ok 0
  else
    match (pySplit duStdout.trim).head? with
    | none => Except.error "IndexError"
    | some tok =>
      match tok.toNat? with
      | none => Except.error "ValueError"
      | some n => Except.ok n

/-! ### Single-item downloader (`download_with_progress`, src/main.py lines 70-146) -/

/-- The exact argument vector of the copy subprocess built by
`download_with_progress` (src/main.py lines 117-130): `-r` is the
recursive flag and `-n` the skip-existing (no-clobber) flag. -/
def gsutil_cp_args (threads : Nat) (source destination : String) :
    List String :=
  ["gsutil", "-m",
   "-o", "GSUtil:parallel_thread_count=" ++ toString threads,
   "-o", "GSUtil:parallel_process_count=1",
   "-o", "GSUtil:sliced_object_download_threshold=64M",
   "-o", "GSUtil:sliced_object_download_max_components=8",
   "cp", "-r", "-n", source, destination]

/-- Events of one `download_with_progress` invocation, in program order. -/
inductive DlEvent where
  | monitorStart
  | copyFinished (ok : Bool)
  | stopSignalSet
  | joinMonitor (timeoutMs : Nat)
  | barClosed
  deriving Repr, DecidableEq

/-- Observable outcome of one `download_with_progress` invocation. -/
structure DlRun where
  barTotal : Nat
  cpArgs : List String
  events : List DlEvent
  returned : Bool
  deriving Repr, DecidableEq

/-- Opening step of `download_with_progress`:
`if total_size is None: total_size = get_size_of_object(source)`; a probe
exception propagates out of the call. -/
def resolveTotal (total_size : Option Nat) (duExit : Nat)
    (duStdout : String) : Except String Nat :=
  match total_size with
  | some t => Except.ok t
  | none => get_size_of_object duExit duStdout

/-- Embedding of `download_with_progress`: resolve the bar total with
`resolveTotal`, then in program order: start the monitor thread, run the
copy subprocess to completion (`success = True` iff its exit status is 0;
`check=True` raises `CalledProcessError` on a nonzero status, caught and
turned into `success = False`), set the `download_complete` event, join
the monitor thread with a `timeout=1.0` second (1000 ms) bound and
proceed whether or not it exited, close the bar, and return `success`. -/
def download_with_progress (threads : Nat) (source destination : String)
    (total_size : Option Nat) (duExit : Nat) (duStdout : String)
    (copyExit : Nat) : Except String DlRun :=
  match resolveTotal total_size duExit duStdout with
  | Except.error e => Except.error e
  | Except.ok total =>
    Except.ok
      { barTotal := total,
        cpArgs := gsutil_cp_args threads source destination,
        events := [DlEvent.monitorStart, DlEvent.copyFinished (copyExit == 0),
                   DlEvent.stopSignalSet, DlEvent.joinMonitor 1000,
                   DlEvent.barClosed],
        returned := copyExit == 0 }

/-- Effect of the external copy tool on the destination's contents when
the skip-existing flag `-n` is among its arguments, modelled from the
spec's contract for the external collaborator (spec sections 4.1 and 6):
an incoming file whose path already exists at the destination is skipped,
every other incoming file is written.  Contents are an association list
from path to file content, looked up front-first. -/
def cpNoClobber (dest incoming : List (String × String)) :
    List (String × String) :=
  dest ++ incoming.filter (fun p => dest.all (fun q => q.1 != p.1))

/-! ### Path helpers and folder-destination preparation
(`download_item`, src/main.py lines 158-172, and the interactive
single-folder path, lines 324-335) -/

/-- Python `s.rstrip` of the path separator: remove every trailing `/`. -/
def rstripSlashes (s : String) : String :=
  String.mk ((s.toList.reverse.dropWhile (fun c => c == '/')).reverse)

/-- Python `os.path.basename`: the part after the last `/` (empty when
the path ends in `/`). -/
def basename (s : String) : String :=
  String.mk ((s.toList.reverse.takeWhile (fun c => c != '/')).reverse)

/-- Python `os.path.join(a, b)` for POSIX paths: `b` replaces `a` when
`b` is absolute, otherwise one `/` separates them. -/
def joinPath (a b : String) : String :=
  if b.toList.head? = some '/' then b
  else if a = "" then b
  else if a.toList.getLast? = some '/' then a ++ b
  else a ++ "/" ++ b

/-- `if not os.path.exists(folder_dest): os.makedirs(folder_dest)`, over
a filesystem modelled as the list of existing paths: a no-op when the
path exists, otherwise the path is added. -/
def makedirsIfAbsent (fs : List String) (d : String) : List String :=
  if d ∈ fs then fs else d :: fs

/-- Folder-mode preparation performed by `download_item`
(src/main.py lines 159-165) before it dispatches the copy:
`folder_name = os.path.basename(item.rstrip(sep))`,
`folder_dest = os.path.join(destination, folder_name)`, create the
subdirectory if absent.  Returns the updated filesystem and the
`(source, destination)` pair of the copy invocation dispatched next. -/
def download_item_folder_prep (fs : List String)
    (destination item : String) : List String × String × String :=
  let folder_name := basename (rstripSlashes item)
  let folder_dest := joinPath destination folder_name
  (makedirsIfAbsent fs folder_dest, item, folder_dest)

/-- The identical preparation in the interactive single-folder branch
(`choice == "3"`, src/main.py lines 328-335). -/
def interactive_folder_prep (fs : List String)
    (destination folder_path : String) : List String × String × String :=
  let folder_name := basename (rstripSlashes folder_path)
  let folder_dest := joinPath destination folder_name
  (makedirsIfAbsent fs folder_dest, folder_path, folder_dest)

/-! ### Interactive selection handling (`interactive_download`,
src/main.py lines 300-359)

After listing the bucket and resolving the destination, the function
branches on the mode string `choice`.  User input is a parameter:
`single` is the result of `int(input(...))` in the single-file and
single-folder branches (`none` when the text is not numeric, in which
case `int` raises `ValueError`); `multi` is the list of results of
`int(idx.strip())` over the comma-separated tokens in the multi-select
branches (any `none` makes the comprehension raise `ValueError`, which
those two branches catch). -/

/-- Outcome of the selection processing: `transfer srcs` dispatches
downloads of the given sources; `aborted msg` prints the message and
returns with no transfer and no directory creation; `crashed` is an
uncaught exception, which terminates the Python process with a traceback
and a nonzero exit status. -/
inductive SelOutcome where
  | transfer (sources : List String)
  | aborted (msg : String)
  | crashed
  deriving Repr, DecidableEq

/-- The list comprehension
`[items[idx] for idx in indices if 0 <= idx < len(items)]`. -/
def pickValid (items : List String) (indices : List Int) : List String :=
  (indices.filter
      (fun idx => decide (0 ≤ idx) && decide (idx < (items.length : Int)))).map
    (fun idx => items.getD idx.toNat "")

/-- Branching of `interactive_download` on the mode `choice`
(src/main.py lines 300-359).  Indices are 1-based in the interface and
decremented on parse; `bucket` is the already-normalised bucket path used
by the whole-bucket mode. -/
def handleChoice (items : List String) (bucket : String) (choice : String)
    (single : Option Int) (multi : List (Option Int)) : SelOutcome :=
  if choice = "1" then
    match single with
    | none => SelOutcome.crashed
    | some n =>
      if 0 ≤ n - 1 ∧ n - 1 < (items.length : Int) then
        SelOutcome.transfer [items.getD (n - 1).toNat ""]
      else SelOutcome.aborted "Invalid file selection."
  else if choice = "2" then
    if multi.any (fun o => o.isNone) then
      SelOutcome.aborted "Invalid input. Please enter comma-separated numbers."
    else
      let files := pickValid items (multi.map (fun o => o.getD 0 - 1))
      if files ≠ [] then SelOutcome.transfer files
      else SelOutcome.aborted "No valid files selected."
  else if choice = "3" then
    match single with
    | none => SelOutcome.crashed
    | some n =>
      if 0 ≤ n - 1 ∧ n - 1 < (items.length : Int) then
        SelOutcome.transfer [items.getD (n - 1).toNat ""]
      else SelOutcome.aborted "Invalid folder selection."
  else if choice = "4" then
    if multi.any (fun o => o.isNone) then
      SelOutcome.aborted "Invalid input. Please enter comma-separated numbers."
    else
      let folders := pickValid items (multi.map (fun o => o.getD 0 - 1))
      if folders ≠ [] then SelOutcome.transfer folders
      else SelOutcome.aborted "No valid folders selected."
  else if choice = "5" then
    SelOutcome.transfer [bucket]
  else
    SelOutcome.aborted
      "Invalid choice. Please run the program again and select a valid option."

/-! ### Process exit status (`main` and module level,
src/main.py lines 20-24, 190-200 and 361-457) -/

/-- Environment of one process run, as observed by the checks on the way
to the downloads. -/
structure MainEnv where
  /-- `importlib.util.find_spec("tqdm")` finds the package (line 8). -/
  tqdmInstalled : Bool
  /-- `pip install tqdm` succeeds when the package is missing (line 12). -/
  pipInstallOk : Bool
  /-- `gsutil version` runs with exit status 0 (`check_gsutil_installed`). -/
  gsutilOk : Bool
  /-- `args.interactive` is set or no CLI arguments were given (line 391). -/
  interactive : Bool
  /-- The interactive session raises an uncaught exception — e.g. the
  `ValueError` of non-numeric input in the single-file or single-folder
  branch (`handleChoice ... = SelOutcome.crashed`). -/
  interactiveRaises : Bool
  /-- `os.path.exists(destination)` (line 399). -/
  destExists : Bool
  /-- `os.makedirs(destination)` succeeds (line 401). -/
  mkdirOk : Bool
  /-- `args.bucket` (line 408). -/
  bucketArg : Option String
  /-- `args.file` (line 419). -/
  fileArg : Option String
  /-- `args.folder` (line 433). -/
  folderArg : Option String
  /-- `os.path.exists(folder_dest)` in the non-interactive folder branch
  (line 438). -/
  folderDestExists : Bool
  /-- `os.makedirs(folder_dest)` at line 439 succeeds.  Unlike the
  destination creation at line 401, this call has no `try/except`, so its
  failure is an uncaught `OSError`. -/
  folderMkdirOk : Bool
  /-- The dispatched `download_with_progress` call raises an uncaught
  exception — e.g. the `IndexError`/`ValueError` of the size probe on
  zero-exit malformed `du` output (`get_size_of_object ... = Except.error e`).
  The copy's own failure is caught and never raises. -/
  downloadRaises : Bool
  deriving Repr, DecidableEq

/-- Process exit status of one run, following the program order of the
module level and `main`: `sys.exit(1)` when a required package is missing
and cannot be installed (line 24); `sys.exit(1)` when `gsutil` is missing
(line 385); in interactive mode the process ends with status 0 unless the
session raises an uncaught exception (status 1, Python's exit status for
a traceback); in non-interactive mode `sys.exit(1)` when the destination
directory is absent and cannot be created (line 405), then `sys.exit(1)`
when no bucket argument was given (line 411); then one download branch
runs — `--file` (lines 419-430), else `--folder` (lines 433-447), else
the whole bucket (lines 450-457).  The folder branch first runs the
unguarded `os.makedirs(folder_dest)` (line 439), whose failure is an
uncaught `OSError` (status 1); in every branch an uncaught exception from
the dispatched download (size-probe parse error) is status 1; otherwise
`main` returns normally — status 0 — whatever the per-item successes
`copyOk` are, which only select the printed messages. -/
def processExit (env : MainEnv) (copyOk : String → Bool) : Nat :=
  if !env.tqdmInstalled && !env.pipInstallOk then 1
  else if !env.gsutilOk then 1
  else if env.interactive then
    if env.interactiveRaises then 1 else 0
  else if !env.destExists && !env.mkdirOk then 1
  else if env.bucketArg.isNone then 1
  else
    let _ := copyOk
    if env.fileArg.isSome then
      if env.downloadRaises then 1 else 0
    else if env.folderArg.isSome then
      if !env.folderDestExists && !env.folderMkdirOk then 1
      else if env.downloadRaises then 1 else 0
    else
      if env.downloadRaises then 1 else 0

/-! ### Theorems -/

/-- Invariant of the loop: after any run from any start state, along a
non-decreasing observation sequence whose first element is at least the
starting `previous`, the bar advanced by exactly `last - previous` and
`previous` ends at the last observed size.  The chain hypothesis on
`st.previous :: sizes` packages both monotonicity conditions. -/
theorem foldl_monitorStep_of_chain (sizes : List Nat) :
    ∀ st : MonitorState, List.Chain' (· ≤ ·) (st.previous :: sizes) →
      (sizes.foldl monitorStep st).advanced
          = st.advanced + (sizes.getLastD st.previous - st.previous)
        ∧ (sizes.foldl monitorStep st).previous = sizes.getLastD st.previous
        ∧ st.previous ≤ (sizes.foldl monitorStep st).previous := by
  induction sizes with
  | nil =>
    intro st _
    simp [List.getLastD]
  | cons c rest ih =>
    intro st hchain
    have hpc : st.previous ≤ c := (List.chain'_cons.mp hchain).1
    have hrest : List.Chain' (· ≤ ·) (c :: rest) := (List.chain'_cons.mp hchain).2
    have hstep : (monitorStep st c).previous = c
        ∧ (monitorStep st c).advanced = st.advanced + (c - st.previous) := by
      by_cases h : st.previous < c
      · simp [monitorStep, h]
      · have hceq : c = st.previous := Nat.le_antisymm (Nat.not_lt.mp h) hpc
        simp [monitorStep, h, hceq]
    have hchain' : List.Chain' (· ≤ ·) ((monitorStep st c).previous :: rest) := by
      rw [hstep.1]; exact hrest
    have := ih (monitorStep st c) hchain'
    rcases this with ⟨hadv, hprev, hle⟩
    have hc_le : c ≤ (rest.foldl monitorStep (monitorStep st c)).previous := by
      rw [hstep.1] at hle; exact hle
    refine ⟨?_, ?_, ?_⟩
    · rw [List.foldl_cons, hadv, hstep.1, hstep.2]
      have hlast : rest.getLastD c = (c :: rest).getLastD st.previous := by
        cases rest <;> simp [List.getLastD]
      rw [← hlast]
      have hcr : c ≤ rest.getLastD c := by
        have := hprev
        rw [hstep.1] at this
        rw [← this]
        exact hc_le
      omega
    · rw [List.foldl_cons, hprev, hstep.1]
      cases rest <;> simp [List.getLastD]
    · rw [List.foldl_cons]
      exact Nat.le_trans hpc hc_le

/-- Bar position never moves backwards in a single poll:
`progress_bar.update` is only called with a positive delta. -/
theorem monitorStep_advanced_le (st : MonitorState) (c : Nat) :
    st.advanced ≤ (monitorStep st c).advanced := by
  by_cases h : st.previous < c <;> simp [monitorStep, h]

/-- Bar position never moves backwards over any run tail. -/
theorem foldl_monitorStep_advanced_le (sizes : List Nat) :
    ∀ st : MonitorState, st.advanced ≤ (sizes.foldl monitorStep st).advanced := by
  induction sizes with
  | nil => intro st; simp
  | cons c rest ih =>
    intro st
    exact Nat.le_trans (monitorStep_advanced_le st c) (ih (monitorStep st c))

/-- C1, counterexample: the observation sequence `[5, 10]` is
non-decreasing, yet the bar's cumulative advancement is 10 (the final
size), not `final_size - initial_size = 10 - 5 = 5`: because
`previous_size` starts at 0, the first poll advances the bar by the whole
size already on disk, so a destination that is non-empty at the first poll
refutes the claim as stated. -/
theorem monitor_advancement_counterexample :
    List.Chain' (· ≤ ·) [5, 10] ∧ (runMonitor [5, 10]).advanced ≠ 10 - 5 := by
  constructor
  · simp [List.chain'_cons]
  · decide

/-- C1 (amended): for every run of the progress monitor in which the
sequence of destination sizes observed at successive polls is
non-decreasing, the bar's cumulative advancement equals
`final_size - baseline` where the baseline `previous_size` starts at 0 —
that is, it equals the final observed size; each poll advances the bar by
exactly the positive delta since the previous sample and no byte is
counted twice.  (`final_size - initial_size` as originally stated holds
exactly when the first observed size is 0.) -/
theorem monitor_advancement_eq_final (sizes : List Nat)
    (h : List.Chain' (· ≤ ·) sizes) :
    (runMonitor sizes).advanced = sizes.getLastD 0 := by
  have hchain : List.Chain' (· ≤ ·) (0 :: sizes) := by
    rw [List.chain'_cons']
    exact ⟨fun b _ => Nat.zero_le b, h⟩
  have := foldl_monitorStep_of_chain sizes { previous := 0, advanced := 0 } hchain
  simpa [runMonitor] using this.1

/-- C1, witness: the theorem applied to the concrete non-decreasing run
`[0, 3, 7]`, whose cumulative advancement is the final size 7. -/
theorem monitor_advancement_eq_final_witness :
    (runMonitor [0, 3, 7]).advanced = [0, 3, 7].getLastD 0 :=
  monitor_advancement_eq_final [0, 3, 7] (by simp [List.chain'_cons])

/-- C3: for every sequence of destination sizes observed by the monitor —
including sequences with transient drops — the bar never decrements: a
poll with a non-positive delta produces no update, and the cumulative bar
position is monotonically non-decreasing through every extension of the
run. -/
theorem monitor_never_decrements :
    (∀ st : MonitorState, ∀ c : Nat, st.advanced ≤ (monitorStep st c).advanced)
    ∧ (∀ sizes extra : List Nat,
        (runMonitor sizes).advanced ≤ (runMonitor (sizes ++ extra)).advanced)
    ∧ (∀ st : MonitorState, ∀ c : Nat, c ≤ st.previous → monitorStep st c = st) := by
  refine ⟨monitorStep_advanced_le, ?_, ?_⟩
  · intro sizes extra
    rw [runMonitor, runMonitor, List.foldl_append]
    exact foldl_monitorStep_advanced_le extra _
  · intro st c hc
    simp [monitorStep, Nat.not_lt.mpr hc]

/-- Joining the pool rounds recovers the submitted item list, for any
positive pool width: no item is dropped or duplicated by the scheduling. -/
theorem poolRounds_join (w : Nat) (hw : w ≠ 0) :
    ∀ n (l : List String), l.length ≤ n → (poolRounds w l).flatten = l := by
  intro n
  induction n with
  | zero =>
    intro l hl
    have : l = [] := List.eq_nil_of_length_eq_zero (Nat.le_zero.mp hl)
    subst this
    rw [poolRounds]
    simp
  | succ n ih =>
    intro l hl
    by_cases hnil : l = []
    · subst hnil
      rw [poolRounds]
      simp
    · rw [poolRounds]
      have hcond : ¬(l = [] ∨ w = 0) := by
        intro hc
        rcases hc with hc | hc
        · exact hnil hc
        · exact hw hc
      simp only [hcond, dite_false]
      have hlen : (l.drop w).length ≤ n := by
        have h2 : 0 < l.length := List.length_pos.mpr hnil
        simp only [List.length_drop]
        omega
      rw [List.flatten_cons, ih (l.drop w) hlen, List.take_append_drop]

/-- The collected result list equals the plain map of `download_item`
over the submitted items, for any positive pool width: the pool width
affects scheduling only, never the results. -/
theorem batchResults_eq_map (copyOk : String → Bool) (w : Nat)
    (items : List String) (hw : w ≠ 0) :
    batchResults copyOk w items = items.map (download_item_result copyOk) := by
  rw [batchResults, ← List.map_flatten, poolRounds_join w hw items.length items le_rfl]

/-- Filtering a list of pairs on the boolean component splits its length. -/
theorem length_filter_snd_add (results : List (String × Bool)) :
    (successfulOf results).length + (failedOf results).length
      = results.length := by
  induction results with
  | nil => rfl
  | cons r rest ih =>
    rcases r with ⟨item, ok⟩
    cases ok <;>
      simp only [successfulOf, failedOf, List.filter_cons, List.length_map] at * <;>
      simp_all <;> omega

/-- C2: for every list of `N` transfer items and every pool width
`W ≥ 1` (whether `W ≥ N` or `W < N`), `batch_download` attempts every item
exactly once and collects exactly `N` results — the attempted sources are
exactly the submitted list — with
`len(successful) + len(failed) = N`; and each item's collected result
carries its own copy outcome `copyOk item`, so a copy failure of one item
never prevents any other item from being attempted and potentially
succeeding. -/
theorem batch_download_attempts_all (copyOk : String → Bool) (w : Nat)
    (items : List String) (hw : 1 ≤ w) :
    (batchResults copyOk w items).map Prod.fst = items
    ∧ (batchResults copyOk w items).length = items.length
    ∧ (successfulOf (batchResults copyOk w items)).length
        + (failedOf (batchResults copyOk w items)).length = items.length
    ∧ ∀ item ∈ items, (item, copyOk item) ∈ batchResults copyOk w items := by
  have hw' : w ≠ 0 := Nat.one_le_iff_ne_zero.mp hw
  rw [batchResults_eq_map copyOk w items hw']
  refine ⟨?_, ?_, ?_, ?_⟩
  · rw [List.map_map,
      show Prod.fst ∘ download_item_result copyOk = id from funext fun it => rfl,
      List.map_id]
  · simp
  · rw [length_filter_snd_add]
    simp
  · intro item hmem
    exact List.mem_map_of_mem (download_item_result copyOk) hmem

/-- C2, witness: a concrete batch of three items on a pool of width 2
(so `W < N`), where the middle item's copy fails; all three are attempted,
`2 + 1 = 3` results are collected. -/
theorem batch_download_attempts_all_witness :
    (batchResults (fun it => !(it == "gs://b/bad")) 2
        ["gs://b/a", "gs://b/bad", "gs://b/c"]).map Prod.fst
      = ["gs://b/a", "gs://b/bad", "gs://b/c"]
    ∧ (batchResults (fun it => !(it == "gs://b/bad")) 2
        ["gs://b/a", "gs://b/bad", "gs://b/c"]).length = 3
    ∧ (successfulOf (batchResults (fun it => !(it == "gs://b/bad")) 2
        ["gs://b/a", "gs://b/bad", "gs://b/c"])).length
      + (failedOf (batchResults (fun it => !(it == "gs://b/bad")) 2
        ["gs://b/a", "gs://b/bad", "gs://b/c"])).length = 3
    ∧ ∀ item ∈ ["gs://b/a", "gs://b/bad", "gs://b/c"],
        (item, (fun it => !(it == "gs://b/bad")) item)
          ∈ batchResults (fun it => !(it == "gs://b/bad")) 2
              ["gs://b/a", "gs://b/bad", "gs://b/c"] := by
  have h := batch_download_attempts_all (fun it => !(it == "gs://b/bad")) 2
    ["gs://b/a", "gs://b/bad", "gs://b/c"] (by decide)
  simpa using h

/-- Successful-items aggregation of a mapped result list is an
order-preserving filter of the submitted items. -/
theorem successfulOf_map (copyOk : String → Bool) :
    ∀ items : List String,
      successfulOf (items.map (download_item_result copyOk))
        = items.filter copyOk := by
  intro items
  induction items with
  | nil => rfl
  | cons hd tl ih =>
    simp only [List.map_cons, successfulOf, List.filter_cons,
      download_item_result] at *
    cases hcase : copyOk hd <;> simp [hcase] <;> simpa [successfulOf] using ih

/-- Failed-items aggregation of a mapped result list is an
order-preserving filter of the submitted items. -/
theorem failedOf_map (copyOk : String → Bool) :
    ∀ items : List String,
      failedOf (items.map (download_item_result copyOk))
        = items.filter (fun it => !copyOk it) := by
  intro items
  induction items with
  | nil => rfl
  | cons hd tl ih =>
    simp only [List.map_cons, failedOf, List.filter_cons,
      download_item_result] at *
    cases hcase : copyOk hd <;> simp [hcase] <;> simpa [failedOf] using ih

/-- C9: although the spec allows results to be collected in any order,
`batch_download` collects them in submission order — the result list is
exactly the submitted item list mapped to `(item, success)`, so the i-th
result corresponds to the i-th submitted item — and the aggregated
`successful` and `failed` lists are order-preserving filters of the
submitted items. -/
theorem batch_download_preserves_order (copyOk : String → Bool) (w : Nat)
    (items : List String) (hw : 1 ≤ w) :
    batchResults copyOk w items = items.map (fun it => (it, copyOk it))
    ∧ successfulOf (batchResults copyOk w items) = items.filter copyOk
    ∧ failedOf (batchResults copyOk w items)
        = items.filter (fun it => !copyOk it) := by
  have hw' : w ≠ 0 := Nat.one_le_iff_ne_zero.mp hw
  rw [batchResults_eq_map copyOk w items hw']
  exact ⟨rfl, successfulOf_map copyOk items, failedOf_map copyOk items⟩

/-- C9, witness: a concrete batch of two items on a pool of width 1, the
first succeeding and the second failing. -/
theorem batch_download_preserves_order_witness :
    batchResults (fun it => it == "gs://b/x") 1 ["gs://b/x", "gs://b/y"]
        = [("gs://b/x", true), ("gs://b/y", false)]
    ∧ successfulOf (batchResults (fun it => it == "gs://b/x") 1
        ["gs://b/x", "gs://b/y"]) = ["gs://b/x"]
    ∧ failedOf (batchResults (fun it => it == "gs://b/x") 1
        ["gs://b/x", "gs://b/y"]) = ["gs://b/y"] := by
  have h := batch_download_preserves_order (fun it => it == "gs://b/x") 1
    ["gs://b/x", "gs://b/y"] (by decide)
  simpa using h

/-- Fields of every run that `download_with_progress` returns: the event
trace in program order and the returned boolean. -/
theorem download_with_progress_fields (threads : Nat)
    (source destination : String) (total_size : Option Nat) (duExit : Nat)
    (duStdout : String) (copyExit : Nat) (run : DlRun)
    (h : download_with_progress threads source destination total_size
          duExit duStdout copyExit = Except.ok run) :
    run.returned = (copyExit == 0)
    ∧ run.events = [DlEvent.monitorStart, DlEvent.copyFinished (copyExit == 0),
        DlEvent.stopSignalSet, DlEvent.joinMonitor 1000, DlEvent.barClosed]
    ∧ run.cpArgs = gsutil_cp_args threads source destination := by
  unfold download_with_progress at h
  rcases hres : resolveTotal total_size duExit duStdout with e | total <;>
    rw [hres] at h
  · exact absurd h (by simp)
  · simp only [Except.ok.injEq] at h
    exact ⟨by rw [← h], by rw [← h], by rw [← h]⟩

/-- C3, witness: a run observing the transient drop `[5, 3]` and then
`[5, 3, 2]` never lowers the bar, and a poll at size 5 with
`previous_size = 7` is a no-op. -/
theorem monitor_never_decrements_witness :
    (runMonitor [5, 3]).advanced ≤ (runMonitor ([5, 3] ++ [2])).advanced
    ∧ monitorStep { previous := 7, advanced := 3 } 5
        = { previous := 7, advanced := 3 } :=
  ⟨monitor_never_decrements.2.1 [5, 3] [2],
   monitor_never_decrements.2.2 { previous := 7, advanced := 3 } 5
     (by decide)⟩

/-- C5: in every invocation of `download_with_progress` that returns, the
copy subprocess's completion is strictly ordered before the stop signal
is set; the monitor join carries a bounded 1000 ms timeout (and it is the
only join), after which the function proceeds to close the bar regardless
of the monitor; and the returned value is exactly the copy's success
boolean — `true` iff the external copy exited with status zero. -/
theorem download_copy_completion_before_stop (threads : Nat)
    (source destination : String) (total_size : Option Nat) (duExit : Nat)
    (duStdout : String) (copyExit : Nat) (run : DlRun)
    (h : download_with_progress threads source destination total_size
          duExit duStdout copyExit = Except.ok run) :
    run.events.indexOf (DlEvent.copyFinished run.returned)
        < run.events.indexOf DlEvent.stopSignalSet
    ∧ (DlEvent.joinMonitor 1000 ∈ run.events
        ∧ ∀ t, DlEvent.joinMonitor t ∈ run.events → t = 1000)
    ∧ run.events.getLast? = some DlEvent.barClosed
    ∧ (run.returned = true ↔ copyExit = 0) := by
  obtain ⟨hret, hev, _⟩ := download_with_progress_fields threads source
    destination total_size duExit duStdout copyExit run h
  rw [hret, hev]
  cases h0 : copyExit == 0 <;>
    refine ⟨by decide, ⟨by decide, fun t ht => by simpa using ht⟩,
      by decide, ?_⟩
  · simp_all
  · simp_all

/-- C5, witness: a concrete invocation (known total 100, copy exit
status 0) applied to the theorem. -/
theorem download_copy_completion_before_stop_witness :
    ({ barTotal := 100,
       cpArgs := gsutil_cp_args 8 "gs://b/f" "/d/f",
       events := [DlEvent.monitorStart, DlEvent.copyFinished true,
                  DlEvent.stopSignalSet, DlEvent.joinMonitor 1000,
                  DlEvent.barClosed],
       returned := true : DlRun }.events.indexOf
          (DlEvent.copyFinished true)
        < [DlEvent.monitorStart, DlEvent.copyFinished true,
           DlEvent.stopSignalSet, DlEvent.joinMonitor 1000,
           DlEvent.barClosed].indexOf DlEvent.stopSignalSet)
    ∧ (({ barTotal := 100,
          cpArgs := gsutil_cp_args 8 "gs://b/f" "/d/f",
          events := [DlEvent.monitorStart, DlEvent.copyFinished true,
                     DlEvent.stopSignalSet, DlEvent.joinMonitor 1000,
                     DlEvent.barClosed],
          returned := true : DlRun }.returned = true) ↔ (0 : Nat) = 0) := by
  have h := download_copy_completion_before_stop 8 "gs://b/f" "/d/f"
    (some 100) 0 "" 0
    { barTotal := 100,
      cpArgs := gsutil_cp_args 8 "gs://b/f" "/d/f",
      events := [DlEvent.monitorStart, DlEvent.copyFinished true,
                 DlEvent.stopSignalSet, DlEvent.joinMonitor 1000,
                 DlEvent.barClosed],
      returned := true } rfl
  exact ⟨h.1, h.2.2.2⟩

/-- C6: whenever the external size probe fails (nonzero exit status of
the `gsutil du` subprocess), `get_size_of_object` returns 0 rather than
raising, and a `download_with_progress` caller that needs the probe
(`total_size=None`) proceeds — no exception — with a progress bar whose
total is 0, tqdm's unknown-total display. -/
theorem size_probe_fails_soft (duExit : Nat) (duStdout : String)
    (h : duExit ≠ 0) :
    get_size_of_object duExit duStdout = Except.ok 0
    ∧ ∀ (threads : Nat) (source destination : String) (copyExit : Nat),
        Except.map DlRun.barTotal
            (download_with_progress threads source destination none
              duExit duStdout copyExit)
          = Except.ok 0 := by
  have hg : get_size_of_object duExit duStdout = Except.ok 0 := by
    simp [get_size_of_object, h]
  refine ⟨hg, fun threads source destination copyExit => ?_⟩
  unfold download_with_progress
  rw [show resolveTotal none duExit duStdout = Except.ok 0 from hg]
  rfl

/-- C6, witness: probe exit status 1 with empty output yields size 0, and
the caller's bar total is 0. -/
theorem size_probe_fails_soft_witness :
    get_size_of_object 1 "" = Except.ok 0
    ∧ Except.map DlRun.barTotal
        (download_with_progress 8 "gs://b/f" "/d/f" none 1 "" 0)
      = Except.ok 0 := by
  have h := size_probe_fails_soft 1 "" (by decide)
  exact ⟨h.1, h.2 8 "gs://b/f" "/d/f" 0⟩

/-- Lookup in an association list is unchanged by appending entries on
the right when the key is already bound on the left. -/
theorem lookup_append_left (l₂ : List (String × String)) (f v : String) :
    ∀ l₁ : List (String × String),
      l₁.lookup f = some v → (l₁ ++ l₂).lookup f = some v := by
  intro l₁
  induction l₁ with
  | nil => intro h; simp [List.lookup] at h
  | cons q rest ih =>
    intro h
    rcases q with ⟨k, c⟩
    rw [List.cons_append]
    cases hk : (f == k) <;>
      simp only [List.lookup, hk] at h ⊢
    · exact ih h
    · exact h

/-- C10: every copy invocation made by `download_with_progress` passes
both the recursive flag `-r` and the skip-existing flag `-n` to the
external copy command; consequently (under the spec's model of the
external tool's no-clobber semantics, `cpNoClobber`) a file already
present at the destination before the download keeps its content. -/
theorem download_copy_noclobber (threads : Nat)
    (source destination : String) (total_size : Option Nat) (duExit : Nat)
    (duStdout : String) (copyExit : Nat) (run : DlRun)
    (h : download_with_progress threads source destination total_size
          duExit duStdout copyExit = Except.ok run) :
    run.cpArgs = gsutil_cp_args threads source destination
    ∧ "-r" ∈ run.cpArgs
    ∧ "-n" ∈ run.cpArgs
    ∧ ∀ (preexisting incoming : List (String × String)) (f v : String),
        preexisting.lookup f = some v →
        (cpNoClobber preexisting incoming).lookup f = some v := by
  obtain ⟨_, _, hargs⟩ := download_with_progress_fields threads source
    destination total_size duExit duStdout copyExit run h
  refine ⟨hargs, ?_, ?_, ?_⟩
  · rw [hargs]; simp [gsutil_cp_args]
  · rw [hargs]; simp [gsutil_cp_args]
  · intro pre inc f v hv
    exact lookup_append_left (inc.filter (fun p => pre.all (fun q => q.1 != p.1)))
      f v pre hv

/-- C10, witness: a concrete invocation whose argument vector contains
`-n`, and a pre-existing destination file `a.txt` whose content survives
an incoming copy of the same path. -/
theorem download_copy_noclobber_witness :
    "-n" ∈ gsutil_cp_args 8 "gs://b/f" "/d/f"
    ∧ (cpNoClobber [("a.txt", "old")]
        [("a.txt", "new"), ("b.txt", "x")]).lookup "a.txt" = some "old" := by
  have h := download_copy_noclobber 8 "gs://b/f" "/d/f" (some 1) 0 "" 0
    { barTotal := 1,
      cpArgs := gsutil_cp_args 8 "gs://b/f" "/d/f",
      events := [DlEvent.monitorStart, DlEvent.copyFinished true,
                 DlEvent.stopSignalSet, DlEvent.joinMonitor 1000,
                 DlEvent.barClosed],
      returned := true } rfl
  exact ⟨h.2.2.1,
    h.2.2.2 [("a.txt", "old")] [("a.txt", "new"), ("b.txt", "x")]
      "a.txt" "old" rfl⟩

/-- C7: in folder mode — both the batch `download_item` path and the
interactive single-folder path, which perform the identical
preparation — the destination subdirectory is named after the basename
of the source with trailing separators stripped; it exists in the
filesystem state in which the copy is dispatched; existing paths are
preserved; the creation is idempotent and a no-op when the directory
is already present. -/
theorem folder_dest_prepared (fs : List String) (destination item : String) :
    (download_item_folder_prep fs destination item).2.2
        = joinPath destination (basename (rstripSlashes item))
    ∧ (download_item_folder_prep fs destination item).2.2
        ∈ (download_item_folder_prep fs destination item).1
    ∧ (∀ d ∈ fs, d ∈ (download_item_folder_prep fs destination item).1)
    ∧ (joinPath destination (basename (rstripSlashes item)) ∈ fs →
        (download_item_folder_prep fs destination item).1 = fs)
    ∧ (∀ d, makedirsIfAbsent (makedirsIfAbsent fs d) d = makedirsIfAbsent fs d)
    ∧ interactive_folder_prep fs destination item
        = download_item_folder_prep fs destination item := by
  refine ⟨rfl, ?_, ?_, ?_, ?_, rfl⟩
  · by_cases h : joinPath destination (basename (rstripSlashes item)) ∈ fs <;>
      simp [download_item_folder_prep, makedirsIfAbsent, h]
  · intro d hd
    by_cases h : joinPath destination (basename (rstripSlashes item)) ∈ fs <;>
      simp [download_item_folder_prep, makedirsIfAbsent, h, hd]
  · intro h
    simp [download_item_folder_prep, makedirsIfAbsent, h]
  · intro d
    by_cases h : d ∈ fs <;> simp [makedirsIfAbsent, h]

/-- C7, witness: preparing the folder `gs://b/dir/` under destination
`/dest` on a filesystem that already holds `/dest`: the subdirectory is
`/dest/dir`, created before dispatch; preparing it again is a no-op. -/
theorem folder_dest_prepared_witness :
    (download_item_folder_prep ["/dest"] "/dest" "gs://b/dir/").2.2
        = "/dest/dir"
    ∧ (download_item_folder_prep ["/dest"] "/dest" "gs://b/dir/").2.2
        ∈ (download_item_folder_prep ["/dest"] "/dest" "gs://b/dir/").1
    ∧ (download_item_folder_prep ["/dest/dir", "/dest"] "/dest"
        "gs://b/dir/").1 = ["/dest/dir", "/dest"] := by
  have h1 := folder_dest_prepared ["/dest"] "/dest" "gs://b/dir/"
  have h2 := folder_dest_prepared ["/dest/dir", "/dest"] "/dest" "gs://b/dir/"
  refine ⟨?_, h1.2.1, ?_⟩
  · rw [h1.1]
    rfl
  · exact h2.2.2.2.1 (by decide)

/-- C4, counterexample: in single-file mode (`choice == "1"`), non-numeric
input makes `int(input(...))` raise `ValueError`, which this branch does
not catch — the operation does not merely abort, the process terminates
with a traceback and a nonzero status, refuting the claim that in every
selection mode an invalid input leaves the process running. -/
theorem invalid_selection_counterexample :
    handleChoice ["gs://b/a.txt"] "gs://b" "1" none [] = SelOutcome.crashed := by
  decide

/-- C4 (amended): in interactive mode, an out-of-range index in the
single-file and single-folder modes is reported and aborts the operation
without side effects, as are invalid (non-numeric or all-out-of-range)
inputs in the multi-file and multi-folder modes and an unrecognised mode
choice, with the process continuing; but non-numeric input in the
single-file and single-folder modes raises an uncaught `ValueError` and
terminates the process. -/
theorem invalid_selection_amended (items : List String) (bucket : String)
    (single : Option Int) (multi : List (Option Int)) :
    (∀ n : Int, single = some n →
        ¬(0 ≤ n - 1 ∧ n - 1 < (items.length : Int)) →
        handleChoice items bucket "1" single multi
            = SelOutcome.aborted "Invalid file selection."
          ∧ handleChoice items bucket "3" single multi
            = SelOutcome.aborted "Invalid folder selection.")
    ∧ (multi.any (fun o => o.isNone) = true →
        handleChoice items bucket "2" single multi
            = SelOutcome.aborted
                "Invalid input. Please enter comma-separated numbers."
          ∧ handleChoice items bucket "4" single multi
            = SelOutcome.aborted
                "Invalid input. Please enter comma-separated numbers.")
    ∧ (multi.any (fun o => o.isNone) = false →
        pickValid items (multi.map (fun o => o.getD 0 - 1)) = [] →
        handleChoice items bucket "2" single multi
            = SelOutcome.aborted "No valid files selected."
          ∧ handleChoice items bucket "4" single multi
            = SelOutcome.aborted "No valid folders selected.")
    ∧ (∀ choice : String, choice ≠ "1" → choice ≠ "2" → choice ≠ "3" →
        choice ≠ "4" → choice ≠ "5" →
        handleChoice items bucket choice single multi
          = SelOutcome.aborted
              "Invalid choice. Please run the program again and select a valid option.")
    ∧ (single = none →
        handleChoice items bucket "1" single multi = SelOutcome.crashed
          ∧ handleChoice items bucket "3" single multi = SelOutcome.crashed) := by
  refine ⟨?_, ?_, ?_, ?_, ?_⟩
  · intro n hs hr
    subst hs
    constructor <;> simp [handleChoice, hr] <;> omega
  · intro hm
    constructor <;> simp [handleChoice, hm]
  · intro hm hpick
    constructor <;> simp [handleChoice, hm, hpick]
  · intro choice h1 h2 h3 h4 h5
    simp [handleChoice, h1, h2, h3, h4, h5]
  · intro hs
    subst hs
    constructor <;> simp [handleChoice]

/-- C4, witness: on the listing `["gs://b/a.txt", "gs://b/dir/"]`, the
out-of-range single-file selection 5 aborts with a report, and the
multi-file input whose second token is non-numeric aborts with a
report. -/
theorem invalid_selection_amended_witness :
    handleChoice ["gs://b/a.txt", "gs://b/dir/"] "gs://b" "1" (some 5)
        [some 1, none]
      = SelOutcome.aborted "Invalid file selection."
    ∧ handleChoice ["gs://b/a.txt", "gs://b/dir/"] "gs://b" "2" (some 5)
        [some 1, none]
      = SelOutcome.aborted
          "Invalid input. Please enter comma-separated numbers." := by
  have h := invalid_selection_amended ["gs://b/a.txt", "gs://b/dir/"]
    "gs://b" (some 5) [some 1, none]
  exact ⟨(h.1 5 rfl (by decide)).1, (h.2.1 (by decide)).1⟩

/-- C8, counterexample: a run in which the required `tqdm` package is
missing and its installation fails exits with status 1 although the
external storage tool is present, a bucket argument is given in
non-interactive mode and the destination directory exists — so status 1
does not occur exactly in the claim's three cases. -/
theorem exit_code_counterexample :
    processExit
        { tqdmInstalled := false, pipInstallOk := false, gsutilOk := true,
          interactive := false, interactiveRaises := false,
          destExists := true, mkdirOk := true, bucketArg := some "gs://b",
          fileArg := none, folderArg := none, folderDestExists := true,
          folderMkdirOk := true, downloadRaises := false }
        (fun _ => true) = 1
    ∧ ¬((MainEnv.gsutilOk
          { tqdmInstalled := false, pipInstallOk := false, gsutilOk := true,
            interactive := false, interactiveRaises := false,
            destExists := true, mkdirOk := true, bucketArg := some "gs://b",
            fileArg := none, folderArg := none, folderDestExists := true,
            folderMkdirOk := true, downloadRaises := false } = false)
        ∨ (MainEnv.bucketArg
            { tqdmInstalled := false, pipInstallOk := false, gsutilOk := true,
              interactive := false, interactiveRaises := false,
              destExists := true, mkdirOk := true, bucketArg := some "gs://b",
              fileArg := none, folderArg := none, folderDestExists := true,
              folderMkdirOk := true, downloadRaises := false } = none)
        ∨ (MainEnv.destExists
            { tqdmInstalled := false, pipInstallOk := false, gsutilOk := true,
              interactive := false, interactiveRaises := false,
              destExists := true, mkdirOk := true, bucketArg := some "gs://b",
              fileArg := none, folderArg := none, folderDestExists := true,
              folderMkdirOk := true, downloadRaises := false } = false)) := by
  refine ⟨rfl, ?_⟩
  simp

/-- C8 (amended): the exit status is always 0 or 1, never depends on the
per-item transfer outcomes (partial batch failures included), and is 1
exactly when: a required package is missing and cannot be installed, the
external storage tool is missing, an interactive session raises an
uncaught error, or — in non-interactive mode — the destination directory
cannot be created, the required bucket argument is missing, the folder
mode's destination subdirectory cannot be created (uncaught `OSError` at
the unguarded `os.makedirs`, line 439), or the dispatched download raises
an uncaught error. -/
theorem exit_code_amended (env : MainEnv) (f g : String → Bool) :
    (processExit env f = 0 ∨ processExit env f = 1)
    ∧ processExit env f = processExit env g
    ∧ (processExit env f = 1 ↔
        (env.tqdmInstalled = false ∧ env.pipInstallOk = false)
        ∨ env.gsutilOk = false
        ∨ (env.interactive = true ∧ env.interactiveRaises = true)
        ∨ (env.interactive = false ∧ env.destExists = false
            ∧ env.mkdirOk = false)
        ∨ (env.interactive = false ∧ env.bucketArg = none)
        ∨ (env.interactive = false ∧ env.fileArg = none
            ∧ env.folderArg ≠ none ∧ env.folderDestExists = false
            ∧ env.folderMkdirOk = false)
        ∨ (env.interactive = false ∧ env.downloadRaises = true)) := by
  rcases env with ⟨t, p, gs, itv, ir, de, md, b, fa, fo, fde, fmk, dr⟩
  simp only [processExit]
  split_ifs <;>
    simp_all [Option.isNone_iff_eq_none, Option.isSome_iff_ne_none]

end GCSDownloader









